import Mathlib

/-!
Verification of the Subscription Billing & Entitlement Reconciliation Engine
of the dmp-hotspot ISP platform.

This file is a shallow embedding of the billing core:
  - app/models.py      (Subscription, Package, MpesaPayment data model)
  - app/routes.py      (hotspot/PPPoE entitlement extension, proration, callback)
  - app/mpesa.py       (gateway callback, finalize-and-activate, timeout route)
  - app/scheduler.py   (expiry enforcement, reconciliation poller, activation retry)

Conventions of the embedding:
  - timestamps are integers (seconds); Python datetime arithmetic maps to
    integer arithmetic, timedelta(minutes=m) maps to m * 60 seconds;
  - Python float proration (a division followed by math.ceil) is modelled as
    the exact rational ceiling;
  - nullable columns map to Option; JSON audit blobs (raw payloads), money
    amount and phone columns are not modelled because no claim mentions them;
  - database sessions are modelled by explicit state passing: each handler is
    a pure function from the loaded rows to the committed rows;
  - a Flask view that falls off its end without executing a return statement
    yields Option.none; the framework then converts that into an HTTP 500
    through the blueprint error handler (http_status_of).
-/

namespace DmpHotspot

/-- ASCII lower-casing of a single character, the effect of Python str.lower
on the ASCII status/service strings used by the source. -/
def asciiLower (c : Char) : Char :=
  if 65 ≤ c.toNat ∧ c.toNat ≤ 90 then Char.ofNat (c.toNat + 32) else c

/-- Whitespace as stripped by Python str.strip (the subset that can occur in
the status strings of the source). -/
def isPySpace (c : Char) : Bool :=
  c = ' ' || c = '\t' || c = '\n' || c = '\r'

/-- Python (s or "").lower() on a string column. -/
def lowerStr (s : String) : String :=
  String.mk (s.data.map asciiLower)

/-- Python (s or "").strip().lower(), the normalization the source applies to
payment statuses before comparing them. -/
def statusKey (s : String) : String :=
  String.mk ((((s.data.dropWhile isPySpace).reverse.dropWhile isPySpace).reverse).map asciiLower)

/-- Python truthiness of an optional string: None and "" are falsy. -/
def truthyStr : Option String → Bool
  | none => false
  | some s => s ≠ ""

/-- Python (s or d) for strings: the default applies exactly when s is empty. -/
def strOr (s d : String) : String :=
  if s = "" then d else s

/-- Exact model of Python int(math.ceil(a / b)) for integer a and positive
integer b (the float division of the source modelled as exact rationals).
Lean integer division is Euclidean, so the ceiling is the negated floor of
the negated numerator. -/
def ceilIntDiv (a b : Int) : Int := -((-a) / b)

/-- Package row (app/models.py class Package): purchasable plan, immutable
reference data. duration_minutes and price_kes are non-null integer columns. -/
structure Package where
  id : Nat
  duration_minutes : Int
  price_kes : Int
deriving Repr, DecidableEq

/-- Subscription row (app/models.py class Subscription): the entitlement the
core reconciles. Only the columns the billing core reads or writes are kept. -/
structure Subscription where
  status : String
  service_type : String
  package_id : Nat
  pending_package_id : Option Nat
  starts_at : Option Int
  expires_at : Option Int
  pppoe_username : Option String
  hotspot_username : Option String
  last_tx_id : Option Nat
deriving Repr, DecidableEq

/-- MpesaPayment row (app/models.py class MpesaPayment plus the
reconciliation columns added by migration 256ac9da6654): one payment attempt
with its status lifecycle and reconciliation/activation counters. -/
structure MpesaPayment where
  status : String
  subscription_id : Option Nat
  checkout_request_id : Option String
  mpesa_receipt : Option String
  result_code : Option Int
  result_desc : String
  paid_at : Option Int
  created_at : Int
  updated_at : Int
  external_updated_at : Option Int
  reconcile_attempts : Int
  last_reconcile_at : Option Int
  activation_attempts : Int
  last_activation_at : Option Int
  activation_error : Option String
deriving Repr, DecidableEq

/-- app/models.py Subscription.is_active_now: active status, both timestamps
present, and starts_at <= now < expires_at (so expiry at exactly now is NOT
active). -/
def is_active_now (s : Subscription) (now : Int) : Bool :=
  statusKey s.status = "active" && s.starts_at.isSome && s.expires_at.isSome
    && decide (s.starts_at.getD 0 ≤ now) && decide (now < s.expires_at.getD 0)

/-- app/mpesa.py _activate_or_extend_subscription: the gateway payment
engine's extension routine. Raises when the package duration is missing or
non-positive; otherwise extends from expires_at when that is in the future,
else from now. The sub.package relationship of the source is passed
explicitly as pkg. -/
def activate_or_extend_subscription (sub : Subscription) (pkg : Package)
    (now : Int) : Except String Subscription :=
  let minutes := pkg.duration_minutes
  if minutes ≤ 0 then
    .error "Package duration_minutes is missing/invalid"
  else
    let base :=
      match sub.expires_at with
      | some e => if now < e then e else now
      | none => now
    .ok { sub with
      status := "active"
      starts_at := if sub.starts_at.isNone then some now else sub.starts_at
      expires_at := some (base + minutes * 60) }

/-- The username backfill block at the top of app/routes.py
extend_or_activate_hotspot_subscription: ensure hotspot_username exists for
old rows, filled from the customer's phone; touches no other column. -/
def hotspot_username_backfill (sub : Subscription) (customerPhone : Option String) :
    Subscription :=
  if lowerStr sub.service_type = "hotspot" ∧ ¬ truthyStr sub.hotspot_username then
    if truthyStr customerPhone then
      { sub with hotspot_username := customerPhone }
    else sub
  else sub

/-- app/routes.py extend_or_activate_hotspot_subscription: the transaction
callback path's hotspot extension routine. A missing/non-positive duration
falls back to 60 minutes; an ACTIVE row with an expiry extends from
max(expires_at, now); anything else is (re)activated from now. customerPhone
stands for sub.customer.phone used by the username backfill. -/
def extend_or_activate_hotspot_subscription (sub : Subscription) (package : Package)
    (txId : Nat) (customerPhone : Option String) (now : Int) : Subscription :=
  let minutes0 := package.duration_minutes
  let minutes := if minutes0 ≤ 0 then 60 else minutes0
  let sub := hotspot_username_backfill sub customerPhone
  let sub :=
    if sub.status = "active" ∧ sub.expires_at.isSome then
      let e := sub.expires_at.getD 0
      let base := if now < e then e else now
      { sub with
        expires_at := some (base + minutes * 60)
        starts_at := if sub.starts_at.isNone then some now else sub.starts_at }
    else
      { sub with
        status := "active"
        starts_at := some now
        expires_at := some (now + minutes * 60) }
  { sub with last_tx_id := some txId }

/-- app/routes.py PPPOE_BILLING_PERIOD = timedelta(days=30), in seconds. -/
def PPPOE_BILLING_PERIOD_SECONDS : Int := 30 * 24 * 60 * 60

/-- app/routes.py pppoe_extend_or_activate: PPPoE renewal. A future expiry is
extended in place (early renewal keeps remaining time); otherwise the period
restarts at now. A missing duration defaults to the 30-day billing period. -/
def pppoe_extend_or_activate (sub : Subscription) (pkg : Package)
    (txId : Nat) (now : Int) : Subscription :=
  let minutes0 := pkg.duration_minutes
  let minutes := if minutes0 ≤ 0 then PPPOE_BILLING_PERIOD_SECONDS / 60 else minutes0
  let sub :=
    match sub.expires_at with
    | some e =>
      if now < e then
        { sub with
          expires_at := some (e + minutes * 60)
          status := "active"
          starts_at := if sub.starts_at.isNone then some now else sub.starts_at }
      else
        { sub with
          status := "active"
          starts_at := some now
          expires_at := some (now + minutes * 60) }
    | none =>
      { sub with
        status := "active"
        starts_at := some now
        expires_at := some (now + minutes * 60) }
  { sub with last_tx_id := some txId }

/-- app/routes.py compute_pppoe_charge: charge amount and mode for a PPPoE
plan action. The float proration of the source
(math.ceil(diff * (remaining / period))) is modelled as the exact rational
ceiling ceilIntDiv (diff * remaining) period. -/
def compute_pppoe_charge (current_sub : Subscription)
    (current_pkg target_pkg : Package) (now : Int) : Int × String :=
  let old_price := current_pkg.price_kes
  let new_price := target_pkg.price_kes
  let expired :=
    match current_sub.expires_at with
    | none => true
    | some e => e ≤ now
  if expired then
    (new_price, "renewal")
  else if new_price < old_price then
    (0, "downgrade_scheduled")
  else if old_price < new_price then
    let diff := new_price - old_price
    let period_seconds := PPPOE_BILLING_PERIOD_SECONDS
    let remaining_seconds := max (current_sub.expires_at.getD now - now) 0
    let amount :=
      if 0 < period_seconds then ceilIntDiv (diff * remaining_seconds) period_seconds
      else diff
    (max amount 0, "upgrade_prorated")
  else
    (new_price, "renew_extend")

/-- app/routes.py home_internet_pay, downgrade_scheduled branch: the only
mutation is writing the target plan into pending_package_id (no payment is
initiated, package_id and expires_at are untouched). -/
def schedule_pppoe_downgrade (sub : Subscription) (target_pkg : Package) : Subscription :=
  { sub with pending_package_id := some target_pkg.id }

/-- app/routes.py mpesa_callback, PPPoE success branch: an upgrade applies
the paid plan immediately with expiry unchanged; a renewal first swaps in a
scheduled pending package (clearing it) and then extends, with lookup
standing for the db.session.get(Package, id) resolution of the pending id. -/
def mpesa_callback_pppoe_success (sub : Subscription) (pkg : Package)
    (lookup : Nat → Option Package) (txId : Nat) (now : Int) (mode : String) :
    Subscription :=
  if mode = "upgrade_prorated" then
    let sub := { sub with package_id := pkg.id, status := "active", last_tx_id := some txId }
    { sub with starts_at := if sub.starts_at.isNone then some now else sub.starts_at }
  else
    match sub.pending_package_id with
    | some pid =>
      let sub := { sub with package_id := pid, pending_package_id := none }
      let pkg := (lookup pid).getD pkg
      pppoe_extend_or_activate sub pkg txId now
    | none =>
      pppoe_extend_or_activate { sub with package_id := pkg.id } pkg txId now

/-- app/mpesa.py mark_payment_failed: unconditionally set a failure-side
status plus result metadata, optionally bumping the reconciliation counter.
The status guard lives at the call sites, not here. -/
def mark_payment_failed (payment : MpesaPayment) (status : String)
    (result_code : Option Int) (result_desc : String) (now : Int)
    (bump_reconcile : Bool) : MpesaPayment :=
  let p := { payment with
    status := status
    result_code := result_code
    result_desc := result_desc
    external_updated_at := some now
    updated_at := now }
  if bump_reconcile then
    { p with reconcile_attempts := p.reconcile_attempts + 1, last_reconcile_at := some now }
  else p

/-- app/mpesa.py _activate_subscription_and_router: extend the linked
subscription (sub is the row loaded from payment.subscription_id) and commit;
on an extension error the payment is flagged activation_failed with a bumped
attempt counter and the exception propagates (the Bool records that raise).
Router hooks are best-effort and touch no modelled state. -/
def activate_subscription_and_router (payment : MpesaPayment)
    (sub : Option Subscription) (pkg : Package) (now : Int) :
    MpesaPayment × Option Subscription × Bool :=
  match sub with
  | none => (payment, none, false)
  | some s =>
    match activate_or_extend_subscription s pkg now with
    | .ok s1 => (payment, some s1, false)
    | .error e =>
      ({ payment with
          status := "activation_failed"
          activation_attempts := payment.activation_attempts + 1
          last_activation_at := some now
          activation_error := some e }, some s, true)

/-- app/mpesa.py finalize_success_and_activate: DB-first success
finalization. A payment already in success/reconciled WITH a receipt is left
untouched; otherwise it is committed as success and the activation engine
runs. -/
def finalize_success_and_activate (payment : MpesaPayment)
    (mpesa_receipt : Option String) (paid_at : Int) (sub : Option Subscription)
    (pkg : Package) (now : Int) : MpesaPayment × Option Subscription × Bool :=
  if (statusKey payment.status = "success" ∨ statusKey payment.status = "reconciled")
      ∧ truthyStr payment.mpesa_receipt then
    (payment, sub, false)
  else
    let p := { payment with
      status := "success"
      paid_at := some paid_at
      mpesa_receipt :=
        match mpesa_receipt with
        | some r => some r
        | none => payment.mpesa_receipt
      external_updated_at := some now }
    activate_subscription_and_router p sub pkg now

/-- Outcome of one callback delivery: the HTTP response the view returned
(none when control falls off the end of the view function), and the
committed payment and subscription rows. -/
structure CallbackOutcome where
  response : Option (Nat × String)
  payment : Option MpesaPayment
  sub : Option Subscription
deriving Repr, DecidableEq

/-- app/mpesa.py mpesa_callback_route: the gateway webhook endpoint.
Arguments are the parsed payload (checkout id, result code, receipt,
description) and the row-locked lookup results. In the failure branch the
source's 200 return statement sits inside the except handler, so the
successful mark_payment_failed path falls off the end of the view
(response none). -/
def mpesa_callback_route (checkout_id : Option String) (result_code : Option Int)
    (receipt : Option String) (result_desc : String) (payment : Option MpesaPayment)
    (sub : Option Subscription) (pkg : Package) (now : Int) : CallbackOutcome :=
  match checkout_id with
  | none => ⟨some (200, "received_unmatched"), payment, sub⟩
  | some _ =>
    match payment with
    | none => ⟨some (200, "received_unmatched"), none, sub⟩
    | some p =>
      if statusKey p.status = "success" ∨ statusKey p.status = "reconciled" then
        ⟨some (200, "success"), some p, sub⟩
      else if result_code = some 0 then
        let r := finalize_success_and_activate p receipt now sub pkg now
        ⟨some (200, "success"), some r.1, r.2.1⟩
      else
        let st := if result_code = some 1032 then "cancelled" else "failed"
        let p1 := mark_payment_failed p st result_code
          (strOr result_desc "Payment failed") now false
        ⟨none, some p1, sub⟩

/-- Flask semantics around a view: a view that returned a (code, body) pair
answers with that code; a view that returned None raises a TypeError which
the blueprint-level errorhandler (app/mpesa.py mpesa_bp_errorhandler)
converts into an HTTP 500. -/
def http_status_of : Option (Nat × String) → Nat
  | some (code, _) => code
  | none => 500

/-- app/scheduler.py enforce_pppoe_expiry, row selection: active PPPoE rows
with a set expiry that is ≤ now (inclusive boundary) and a set username. -/
def pppoe_expiry_selects (now : Int) (s : Subscription) : Bool :=
  s.service_type = "pppoe" && s.status = "active" && s.expires_at.isSome
    && decide (s.expires_at.getD 0 ≤ now) && s.pppoe_username.isSome

/-- app/scheduler.py enforce_hotspot_expiry, row selection: hotspot analogue
of pppoe_expiry_selects. -/
def hotspot_expiry_selects (now : Int) (s : Subscription) : Bool :=
  s.service_type = "hotspot" && s.status = "active" && s.expires_at.isSome
    && decide (s.expires_at.getD 0 ≤ now) && s.hotspot_username.isSome

/-- Observable side effects of one expiry enforcement pass, in order: the
store commit of the updated rows, then the per-identity device calls with
their outcomes. -/
inductive EnforceEvent where
  | storeCommit : List Subscription → EnforceEvent
  | deviceCall : String → Bool → EnforceEvent
deriving Repr, DecidableEq

/-- app/scheduler.py enforce_pppoe_expiry with dry_run and router flags:
expired rows are marked expired and committed first; only afterwards are the
router disable + kick calls attempted (device gives their combined outcome,
false covering both non-ok results and exceptions, which are logged and never
undo the store change). -/
def enforce_pppoe_expiry (subs : List Subscription) (now : Int)
    (dry_run router_enabled : Bool) (device : String → Bool) :
    List Subscription × List EnforceEvent :=
  let expired := subs.filter (pppoe_expiry_selects now)
  if expired.isEmpty then (subs, [])
  else if dry_run then (subs, [])
  else
    let committed := subs.map fun s =>
      if pppoe_expiry_selects now s then { s with status := "expired" } else s
    let to_enforce :=
      (expired.map fun s => ((s.pppoe_username.getD "").trim)).filter (fun u => u ≠ "")
    if router_enabled then
      (committed, EnforceEvent.storeCommit committed ::
        to_enforce.map (fun u => EnforceEvent.deviceCall u (device u)))
    else
      (committed, [EnforceEvent.storeCommit committed])

/-- app/scheduler.py enforce_hotspot_expiry: hotspot analogue of
enforce_pppoe_expiry, over hotspot_username. -/
def enforce_hotspot_expiry (subs : List Subscription) (now : Int)
    (dry_run router_enabled : Bool) (device : String → Bool) :
    List Subscription × List EnforceEvent :=
  let expired := subs.filter (hotspot_expiry_selects now)
  if expired.isEmpty then (subs, [])
  else if dry_run then (subs, [])
  else
    let committed := subs.map fun s =>
      if hotspot_expiry_selects now s then { s with status := "expired" } else s
    let to_enforce :=
      (expired.map fun s => ((s.hotspot_username.getD "").trim)).filter (fun u => u ≠ "")
    if router_enabled then
      (committed, EnforceEvent.storeCommit committed ::
        to_enforce.map (fun u => EnforceEvent.deviceCall u (device u)))
    else
      (committed, [EnforceEvent.storeCommit committed])

/-- The specification's statement of the prorated upgrade charge, written
independently of the source: the ceiling of the exact rational
price_delta * remaining_seconds / period_seconds with a 30-day period. Used
to compare compute_pppoe_charge against the spec's formula. -/
def specProratedCharge (price_delta remaining_seconds : Int) : Int :=
  ⌈((price_delta * remaining_seconds : Int) : ℚ) / ((2592000 : ℕ) : ℚ)⌉

/-- A 60-minute package used by the concrete scenarios. -/
def pkg60 : Package := { id := 1, duration_minutes := 60, price_kes := 100 }

/-- A package whose duration_minutes column holds 0 (the missing/invalid
duration case the two extension routines treat differently). -/
def pkgNoDuration : Package := { id := 2, duration_minutes := 0, price_kes := 100 }

/-- A freshly initiated pending gateway payment linked to subscription 1. -/
def pendingPaymentEx : MpesaPayment :=
  { status := "pending"
    subscription_id := some 1
    checkout_request_id := some "ws_CO_0001"
    mpesa_receipt := none
    result_code := none
    result_desc := ""
    paid_at := none
    created_at := 0
    updated_at := 0
    external_updated_at := none
    reconcile_attempts := 0
    last_reconcile_at := none
    activation_attempts := 0
    last_activation_at := none
    activation_error := none }

/-- A hotspot subscription created pending at purchase time, never activated. -/
def c1Sub0 : Subscription :=
  { status := "pending"
    service_type := "hotspot"
    package_id := 1
    pending_package_id := none
    starts_at := none
    expires_at := none
    pppoe_username := none
    hotspot_username := some "254700000001"
    last_tx_id := none }

/-- A mid-cycle PPPoE subscription with exactly 10 of 30 days remaining at
t = 0 (expiry at 864000 seconds). -/
def c3Sub : Subscription :=
  { status := "active"
    service_type := "pppoe"
    package_id := 3
    pending_package_id := none
    starts_at := some (-1728000)
    expires_at := some 864000
    pppoe_username := some "D0001"
    hotspot_username := none
    last_tx_id := none }

/-- Current plan for the proration example: 1000 KES / 30 days. -/
def c3Cur : Package := { id := 3, duration_minutes := 43200, price_kes := 1000 }

/-- Target plan for the proration example: 1600 KES / 30 days. -/
def c3Tgt : Package := { id := 4, duration_minutes := 43200, price_kes := 1600 }

/-- An active PPPoE subscription already past its expiry at t = 100. -/
def c8Sub : Subscription :=
  { status := "active"
    service_type := "pppoe"
    package_id := 3
    pending_package_id := none
    starts_at := some 0
    expires_at := some 90
    pppoe_username := some "D0002"
    hotspot_username := none
    last_tx_id := none }

/-- The hotspot analogue of c8Sub, expired at t = 100. -/
def c8HotSub : Subscription :=
  { status := "active"
    service_type := "hotspot"
    package_id := 1
    pending_package_id := none
    starts_at := some 0
    expires_at := some 90
    pppoe_username := none
    hotspot_username := some "254700000002"
    last_tx_id := none }

/-- A non-active subscription with a future expiry and a recorded start: the
state on which the two extension routines disagree. -/
def c10Sub : Subscription :=
  { status := "pending"
    service_type := "hotspot"
    package_id := 1
    pending_package_id := none
    starts_at := some 50
    expires_at := some 100
    pppoe_username := none
    hotspot_username := some "254700000003"
    last_tx_id := none }

theorem ceilIntDiv_eq_rat_ceil (a : Int) (d : Nat) :
    ceilIntDiv a (d : Int) = ⌈(a : ℚ) / (d : ℚ)⌉ := by
  unfold ceilIntDiv
  rw [show ((a : ℚ) / d) = -(((-a : ℤ) : ℚ) / d) by push_cast; ring,
    Int.ceil_neg, Rat.floor_intCast_div_natCast]

/-- C3: for every unexpired PPPoE subscription whose target plan is strictly
dearer than the current plan, compute_pppoe_charge returns mode
upgrade_prorated with amount ceil(price_delta * remaining_seconds /
period_seconds) over the 30-day billing period. -/
theorem C3_upgrade_proration (sub : Subscription) (cur tgt : Package)
    (now e : Int) (hexp : sub.expires_at = some e) (hfut : now < e)
    (hup : cur.price_kes < tgt.price_kes) :
    compute_pppoe_charge sub cur tgt now
      = (specProratedCharge (tgt.price_kes - cur.price_kes) (e - now),
         "upgrade_prorated") := by
  have hper : ((2592000 : Nat) : Int) = PPPOE_BILLING_PERIOD_SECONDS := by decide
  have hrem : max (e - now) 0 = e - now := by omega
  have hceil : ceilIntDiv ((tgt.price_kes - cur.price_kes) * (e - now))
      PPPOE_BILLING_PERIOD_SECONDS
      = specProratedCharge (tgt.price_kes - cur.price_kes) (e - now) := by
    rw [← hper, ceilIntDiv_eq_rat_ceil]
    rfl
  have hnonneg : 0 ≤ specProratedCharge (tgt.price_kes - cur.price_kes) (e - now) := by
    unfold specProratedCharge
    have : (0 : ℚ) ≤ ((tgt.price_kes - cur.price_kes) * (e - now) : Int) / ((2592000 : ℕ) : ℚ) := by
      apply div_nonneg
      · have : (0 : Int) ≤ (tgt.price_kes - cur.price_kes) * (e - now) := by
          apply mul_nonneg <;> omega
        exact_mod_cast this
      · positivity
    exact Int.ceil_nonneg this
  simp only [compute_pppoe_charge, hexp, Option.getD_some, hrem]
  rw [if_neg (by simpa using not_le.mpr hfut),
    if_neg (by omega),
    if_pos hup,
    if_pos (by decide : (0 : Int) < PPPOE_BILLING_PERIOD_SECONDS),
    hceil]
  rw [max_eq_left hnonneg]

/-- C3 witness: a plan of 1000 with 10 of 30 days remaining upgraded to a
1600 plan is charged ceil(600 * 10/30) = 200, mode upgrade_prorated. -/
theorem C3_upgrade_proration_witness :
    compute_pppoe_charge c3Sub c3Cur c3Tgt 0 = (200, "upgrade_prorated") := by
  have h := C3_upgrade_proration c3Sub c3Cur c3Tgt 0 864000 rfl (by decide) (by decide)
  rw [h]
  norm_num [specProratedCharge, c3Cur, c3Tgt]

/-- C9: the expiry boundary is inclusive: a subscription whose expiry equals
now is not considered active and is selected by the expiry schedulers, while
one whose expiry is strictly in the future is not selected. -/
theorem C9_expiry_boundary_inclusive (now : Int) (s : Subscription) :
    (s.expires_at = some now → is_active_now s now = false)
    ∧ (s.service_type = "pppoe" → s.status = "active" → s.pppoe_username.isSome →
        (s.expires_at = some now → pppoe_expiry_selects now s = true)
        ∧ (∀ e, s.expires_at = some e → now < e → pppoe_expiry_selects now s = false))
    ∧ (s.service_type = "hotspot" → s.status = "active" → s.hotspot_username.isSome →
        (s.expires_at = some now → hotspot_expiry_selects now s = true)
        ∧ (∀ e, s.expires_at = some e → now < e → hotspot_expiry_selects now s = false)) := by
  refine ⟨?_, ?_, ?_⟩
  · intro hexp
    simp [is_active_now, hexp]
  · intro hsvc hst huser
    constructor
    · intro hexp
      simp [pppoe_expiry_selects, hsvc, hst, huser, hexp]
    · intro e hexp hfut
      simp [pppoe_expiry_selects, hexp]
      omega
  · intro hsvc hst huser
    constructor
    · intro hexp
      simp [hotspot_expiry_selects, hsvc, hst, huser, hexp]
    · intro e hexp hfut
      simp [hotspot_expiry_selects, hexp]
      omega

/-- C9 witness: at t = 100 a subscription expiring exactly at 100 is selected
for expiry and not active; expiring at 101 it is not selected. -/
theorem C9_expiry_boundary_inclusive_witness :
    (pppoe_expiry_selects 100 { c8Sub with expires_at := some 100 } = true
      ∧ is_active_now { c8Sub with expires_at := some 100 } 100 = false)
    ∧ pppoe_expiry_selects 100 { c8Sub with expires_at := some 101 } = false := by
  refine ⟨⟨?_, ?_⟩, ?_⟩
  · exact ((C9_expiry_boundary_inclusive 100 { c8Sub with expires_at := some 100 }).2.1
      rfl rfl (by decide)).1 rfl
  · exact (C9_expiry_boundary_inclusive 100 { c8Sub with expires_at := some 100 }).1 rfl
  · exact ((C9_expiry_boundary_inclusive 100 { c8Sub with expires_at := some 101 }).2.1
      rfl rfl (by decide)).2 101 rfl (by decide)

theorem hotspot_username_backfill_fields (sub : Subscription) (phone : Option String) :
    (hotspot_username_backfill sub phone).status = sub.status
    ∧ (hotspot_username_backfill sub phone).starts_at = sub.starts_at
    ∧ (hotspot_username_backfill sub phone).expires_at = sub.expires_at := by
  unfold hotspot_username_backfill
  split
  · split
    · exact ⟨rfl, rfl, rfl⟩
    · exact ⟨rfl, rfl, rfl⟩
  · exact ⟨rfl, rfl, rfl⟩

/-- C6 counterexample: the gateway payment engine violates the claim's
otherwise-branch on hotspot subscriptions with no active entitlement: an
expired entitlement re-paid at t = 100 keeps its old starts_at 0 instead of
100, and a non-active entitlement with a future expiry 100 paid at t = 0
with a 60-minute package ends at 3700 (extended from the stored expiry)
instead of the claimed now + duration = 3600. -/
theorem C6_gateway_engine_restart_violation :
    (is_active_now { c8HotSub with status := "expired" } 100 = false
      ∧ ({ c8HotSub with status := "expired" } : Subscription).status ≠ "active"
      ∧ (activate_or_extend_subscription { c8HotSub with status := "expired" }
          pkg60 100).toOption.map Subscription.starts_at = some (some 0)
      ∧ (activate_or_extend_subscription { c8HotSub with status := "expired" }
          pkg60 100).toOption.map Subscription.starts_at ≠ some (some 100))
    ∧ (is_active_now c10Sub 0 = false
      ∧ c10Sub.status ≠ "active"
      ∧ (activate_or_extend_subscription c10Sub pkg60 0).toOption.map
          Subscription.expires_at = some (some 3700)
      ∧ (activate_or_extend_subscription c10Sub pkg60 0).toOption.map
          Subscription.expires_at ≠ some (some 3600)) := by
  decide

/-- C6 amended: on a successful hotspot payment, an active entitlement with
an expiry set is extended by the package's duration from max(current expiry,
now) by BOTH extension paths (early payment preserves remaining time); in
every other entitlement state the transaction-callback routine activates it
with starts_at = now and expires_at = now + duration, while the gateway
payment engine does so only for a never-activated entitlement with no
still-future expiry — it preserves an existing starts_at and extends a
still-future expiry by the duration instead of restarting from now. -/
theorem C6_hotspot_extension_amended (sub : Subscription) (pkg : Package)
    (txId : Nat) (phone : Option String) (now : Int)
    (hdur : 0 < pkg.duration_minutes) :
    ((sub.status = "active" ∧ sub.expires_at.isSome) →
      ∀ e, sub.expires_at = some e →
        ((extend_or_activate_hotspot_subscription sub pkg txId phone now).status = "active"
          ∧ (extend_or_activate_hotspot_subscription sub pkg txId phone now).expires_at
              = some (max e now + pkg.duration_minutes * 60)
          ∧ (extend_or_activate_hotspot_subscription sub pkg txId phone now).starts_at
              = (if sub.starts_at.isNone then some now else sub.starts_at))
        ∧ (activate_or_extend_subscription sub pkg now).toOption.map
            (fun r => (r.status, r.expires_at))
            = some ("active", some (max e now + pkg.duration_minutes * 60)))
    ∧ (¬ (sub.status = "active" ∧ sub.expires_at.isSome) →
        (extend_or_activate_hotspot_subscription sub pkg txId phone now).status = "active"
        ∧ (extend_or_activate_hotspot_subscription sub pkg txId phone now).starts_at = some now
        ∧ (extend_or_activate_hotspot_subscription sub pkg txId phone now).expires_at
            = some (now + pkg.duration_minutes * 60))
    ∧ ((sub.starts_at = none
          ∧ (sub.expires_at = none ∨ ∃ e, sub.expires_at = some e ∧ e ≤ now)) →
        (activate_or_extend_subscription sub pkg now).toOption.map
          (fun r => (r.status, r.starts_at, r.expires_at))
          = some ("active", some now, some (now + pkg.duration_minutes * 60)))
    ∧ (∀ s0, sub.starts_at = some s0 →
        (activate_or_extend_subscription sub pkg now).toOption.map
          Subscription.starts_at = some (some s0))
    ∧ (∀ e, sub.expires_at = some e → now < e →
        (activate_or_extend_subscription sub pkg now).toOption.map
          Subscription.expires_at = some (some (e + pkg.duration_minutes * 60))) := by
  have hmin : ¬ (pkg.duration_minutes ≤ 0) := not_le.mpr hdur
  obtain ⟨hbst, hbsa, hbea⟩ := hotspot_username_backfill_fields sub phone
  have hmax : ∀ a : Int, (if now < a then a else now) = max a now := by
    intro a
    rcases le_or_lt a now with h | h
    · rw [if_neg (not_lt.mpr h), max_eq_right h]
    · rw [if_pos h, max_eq_left h.le]
  refine ⟨?_, ?_, ?_, ?_, ?_⟩
  · rintro ⟨hst, -⟩ e hexp
    constructor
    · simp [extend_or_activate_hotspot_subscription, if_neg hmin, hbst, hbsa, hbea,
        hst, hexp, hmax]
    · simp [activate_or_extend_subscription, if_neg hmin, hexp, hmax, Except.toOption]
  · intro hnot
    have hcond : ¬ (sub.status = "active" ∧ sub.expires_at.isSome) := hnot
    simp only [extend_or_activate_hotspot_subscription, if_neg hmin, hbst, hbsa, hbea]
    rw [if_neg hcond]
    exact ⟨rfl, rfl, rfl⟩
  · rintro ⟨hstarts, hexp⟩
    rcases hexp with hnone | ⟨e, he, hle⟩
    · simp [activate_or_extend_subscription, if_neg hmin, hstarts, hnone, Except.toOption]
    · simp [activate_or_extend_subscription, if_neg hmin, hstarts, he,
        if_neg (not_lt.mpr hle), Except.toOption]
  · intro s0 hs0
    simp [activate_or_extend_subscription, if_neg hmin, hs0, Except.toOption]
  · intro e hexp hfut
    simp [activate_or_extend_subscription, if_neg hmin, hexp, if_pos hfut, Except.toOption]

/-- C6 amended witness: an active entitlement expiring at 90 paid again at
t = 40 ends at 90 + 3600 = 3690 under both extension paths; a never-activated
entitlement paid at t = 40 runs from 40 to 40 + 3600 under both paths. -/
theorem C6_hotspot_extension_amended_witness :
    ((extend_or_activate_hotspot_subscription c8HotSub pkg60 9 none 40).expires_at = some 3690
      ∧ (activate_or_extend_subscription c8HotSub pkg60 40).toOption.map
          (fun r => (r.status, r.expires_at)) = some ("active", some 3690))
    ∧ (extend_or_activate_hotspot_subscription c1Sub0 pkg60 9 none 40).starts_at = some 40
    ∧ (activate_or_extend_subscription c1Sub0 pkg60 40).toOption.map
        (fun r => (r.status, r.starts_at, r.expires_at))
        = some ("active", some 40, some 3640) := by
  have h := C6_hotspot_extension_amended c8HotSub pkg60 9 none 40 (by decide)
  have h2 := C6_hotspot_extension_amended c1Sub0 pkg60 9 none 40 (by decide)
  have ha := h.1 ⟨rfl, by decide⟩ 90 rfl
  refine ⟨⟨?_, ?_⟩, ?_, ?_⟩
  · rw [ha.1.2.1]
    decide
  · rw [ha.2]
    decide
  · exact (h2.2.1 (by decide)).2.1
  · have hb := h2.2.2.1 ⟨rfl, Or.inl rfl⟩
    rw [hb]
    decide

/-- C10 counterexample: on a non-active subscription with a future expiry the
gateway engine extends from the stored expiry and keeps starts_at, while the
callback-path routine restarts from now; and on a package with no duration
the gateway engine raises while the callback-path routine applies a
60-minute fallback. -/
theorem C10_extension_routines_disagree :
    ((activate_or_extend_subscription c10Sub pkg60 0).toOption.map Subscription.expires_at
        = some (some 3700)
      ∧ (extend_or_activate_hotspot_subscription c10Sub pkg60 7 none 0).expires_at = some 3600)
    ∧ ((activate_or_extend_subscription c10Sub pkg60 0).toOption.map Subscription.starts_at
        = some (some 50)
      ∧ (extend_or_activate_hotspot_subscription c10Sub pkg60 7 none 0).starts_at = some 0)
    ∧ ((activate_or_extend_subscription c10Sub pkgNoDuration 0).toOption = none
      ∧ (extend_or_activate_hotspot_subscription c10Sub pkgNoDuration 7 none 0).expires_at
          = some 3600) := by
  decide

/-- C10 amended: the two extension routines agree on resulting status,
starts_at and expires_at when the package duration is positive and the
subscription is either active with an expiry set, or has never been
activated (no starts_at) with no expiry still in the future; they diverge in
the remaining cases (see the counterexample). -/
theorem C10_extension_routines_agree (sub : Subscription) (pkg : Package)
    (txId : Nat) (phone : Option String) (now : Int)
    (hdur : 0 < pkg.duration_minutes)
    (hcase : (sub.status = "active" ∧ sub.expires_at.isSome)
      ∨ (sub.starts_at = none
          ∧ (sub.expires_at = none ∨ ∃ e, sub.expires_at = some e ∧ e ≤ now))) :
    (activate_or_extend_subscription sub pkg now).toOption.map
        (fun r => (r.status, r.starts_at, r.expires_at))
      = some (((extend_or_activate_hotspot_subscription sub pkg txId phone now).status,
          (extend_or_activate_hotspot_subscription sub pkg txId phone now).starts_at,
          (extend_or_activate_hotspot_subscription sub pkg txId phone now).expires_at)) := by
  have hmin : ¬ (pkg.duration_minutes ≤ 0) := not_le.mpr hdur
  obtain ⟨hbst, hbsa, hbea⟩ := hotspot_username_backfill_fields sub phone
  rcases hcase with ⟨hst, hsome⟩ | ⟨hstarts, hexp⟩
  · obtain ⟨e, he⟩ := Option.isSome_iff_exists.mp hsome
    simp [activate_or_extend_subscription, extend_or_activate_hotspot_subscription,
      if_neg hmin, hbst, hbsa, hbea, hst, he, Except.toOption]
  · rcases hexp with hnone | ⟨e, he, hle⟩
    · simp [activate_or_extend_subscription, extend_or_activate_hotspot_subscription,
        if_neg hmin, hbst, hbsa, hbea, hstarts, hnone, Except.toOption]
    · by_cases hst2 : sub.status = "active"
      · simp [activate_or_extend_subscription, extend_or_activate_hotspot_subscription,
          if_neg hmin, hbst, hbsa, hbea, hstarts, he, hst2,
          if_neg (not_lt.mpr hle), Except.toOption]
      · simp [activate_or_extend_subscription, extend_or_activate_hotspot_subscription,
          if_neg hmin, hbst, hbsa, hbea, hstarts, he, hst2,
          if_neg (not_lt.mpr hle), Except.toOption]

/-- C10 amended witness: on an active subscription with an expiry both
routines produce the same (status, starts_at, expires_at). -/
theorem C10_extension_routines_agree_witness :
    (activate_or_extend_subscription c8HotSub pkg60 40).toOption.map
        (fun r => (r.status, r.starts_at, r.expires_at))
      = some (((extend_or_activate_hotspot_subscription c8HotSub pkg60 7 none 40).status,
          (extend_or_activate_hotspot_subscription c8HotSub pkg60 7 none 40).starts_at,
          (extend_or_activate_hotspot_subscription c8HotSub pkg60 7 none 40).expires_at)) :=
  C10_extension_routines_agree c8HotSub pkg60 7 none 40 (by decide)
    (Or.inl ⟨rfl, by decide⟩)

theorem pppoe_extend_or_activate_plan_fields (sub : Subscription) (pkg : Package)
    (txId : Nat) (now : Int) :
    (pppoe_extend_or_activate sub pkg txId now).package_id = sub.package_id
    ∧ (pppoe_extend_or_activate sub pkg txId now).pending_package_id
        = sub.pending_package_id := by
  unfold pppoe_extend_or_activate
  cases sub.expires_at with
  | none => exact ⟨rfl, rfl⟩
  | some e =>
    dsimp only
    split
    · exact ⟨rfl, rfl⟩
    · exact ⟨rfl, rfl⟩

/-- C5: a mid-cycle downgrade of an active PPPoE subscription charges 0,
changes neither expiry nor the current plan while recording the target in
pending_package_id; and the next (non-upgrade) renewal payment applies the
pending package, and only it, then clears it. -/
theorem C5_downgrade_scheduled (sub : Subscription) (cur tgt : Package)
    (now e : Int) (hexp : sub.expires_at = some e) (hfut : now < e)
    (hdown : tgt.price_kes < cur.price_kes) :
    compute_pppoe_charge sub cur tgt now = (0, "downgrade_scheduled")
    ∧ (schedule_pppoe_downgrade sub tgt).expires_at = sub.expires_at
    ∧ (schedule_pppoe_downgrade sub tgt).package_id = sub.package_id
    ∧ (schedule_pppoe_downgrade sub tgt).status = sub.status
    ∧ (schedule_pppoe_downgrade sub tgt).pending_package_id = some tgt.id
    ∧ (∀ (sub2 : Subscription) (pkg q : Package) (lookup : Nat → Option Package)
        (txId : Nat) (now2 : Int) (mode : String),
        sub2.pending_package_id = some q.id → lookup q.id = some q →
        mode ≠ "upgrade_prorated" →
        (mpesa_callback_pppoe_success sub2 pkg lookup txId now2 mode).package_id = q.id
        ∧ (mpesa_callback_pppoe_success sub2 pkg lookup txId now2 mode).pending_package_id
            = none) := by
  refine ⟨?_, rfl, rfl, rfl, rfl, ?_⟩
  · simp only [compute_pppoe_charge, hexp]
    rw [if_neg (by simpa using not_le.mpr hfut), if_pos hdown]
  · intro sub2 pkg q lookup txId now2 mode hpend hlook hmode
    simp only [mpesa_callback_pppoe_success, if_neg hmode, hpend]
    have h := pppoe_extend_or_activate_plan_fields
      { sub2 with package_id := q.id, pending_package_id := none }
      ((lookup q.id).getD pkg) txId now2
    exact ⟨h.1, h.2⟩

/-- C5 witness: downgrading the 1600 plan to the 1000 plan mid-cycle charges
0 and schedules plan 3; the next renewal applies plan 3 and clears the
pending field. -/
theorem C5_downgrade_scheduled_witness :
    compute_pppoe_charge c3Sub c3Tgt c3Cur 0 = (0, "downgrade_scheduled")
    ∧ (schedule_pppoe_downgrade c3Sub c3Cur).pending_package_id = some 3
    ∧ (mpesa_callback_pppoe_success { c3Sub with pending_package_id := some 3 } c3Tgt
        (fun i => if i = 3 then some c3Cur else none) 11 864000 "renewal").package_id = 3
    ∧ (mpesa_callback_pppoe_success { c3Sub with pending_package_id := some 3 } c3Tgt
        (fun i => if i = 3 then some c3Cur else none) 11 864000
        "renewal").pending_package_id = none := by
  have h := C5_downgrade_scheduled c3Sub c3Tgt c3Cur 0 864000 rfl (by decide) (by decide)
  refine ⟨h.1, h.2.2.2.2.1, ?_, ?_⟩
  · exact (h.2.2.2.2.2 { c3Sub with pending_package_id := some 3 } c3Tgt c3Cur
      (fun i => if i = 3 then some c3Cur else none) 11 864000 "renewal" rfl rfl
      (by decide)).1
  · exact (h.2.2.2.2.2 { c3Sub with pending_package_id := some 3 } c3Tgt c3Cur
      (fun i => if i = 3 then some c3Cur else none) 11 864000 "renewal" rfl rfl
      (by decide)).2

/-- C8: expiry enforcement is store-first. The committed store rows do not
depend on the device call outcomes at all (a failing or throwing device call
never reverts them), every selected expired entitlement is committed as
expired, and when any side effects happen at all the store commit strictly
precedes every device call, for both service types. -/
theorem C8_store_first_expiry (subs : List Subscription) (now : Int)
    (d1 d2 : String → Bool) :
    ((enforce_pppoe_expiry subs now false true d1).1
        = (enforce_pppoe_expiry subs now false true d2).1
      ∧ (∀ s ∈ subs, pppoe_expiry_selects now s = true →
          { s with status := "expired" } ∈ (enforce_pppoe_expiry subs now false true d1).1)
      ∧ ((enforce_pppoe_expiry subs now false true d1).2 = []
        ∨ ∃ tl, (enforce_pppoe_expiry subs now false true d1).2
            = EnforceEvent.storeCommit (enforce_pppoe_expiry subs now false true d1).1 :: tl))
    ∧ ((enforce_hotspot_expiry subs now false true d1).1
        = (enforce_hotspot_expiry subs now false true d2).1
      ∧ (∀ s ∈ subs, hotspot_expiry_selects now s = true →
          { s with status := "expired" } ∈ (enforce_hotspot_expiry subs now false true d1).1)
      ∧ ((enforce_hotspot_expiry subs now false true d1).2 = []
        ∨ ∃ tl, (enforce_hotspot_expiry subs now false true d1).2
            = EnforceEvent.storeCommit (enforce_hotspot_expiry subs now false true d1).1 :: tl)) := by
  constructor
  · by_cases hemp : (subs.filter (pppoe_expiry_selects now)).isEmpty
    · have hres : ∀ d : String → Bool, enforce_pppoe_expiry subs now false true d = (subs, []) := by
        intro d
        unfold enforce_pppoe_expiry
        rw [if_pos hemp]
      refine ⟨by rw [hres d1, hres d2], ?_, Or.inl (by rw [hres d1])⟩
      intro s hs hsel
      exfalso
      have hmem : s ∈ subs.filter (pppoe_expiry_selects now) :=
        List.mem_filter.mpr ⟨hs, hsel⟩
      rw [List.isEmpty_iff] at hemp
      rw [hemp] at hmem
      exact List.not_mem_nil s hmem
    · have hfst : ∀ d : String → Bool, (enforce_pppoe_expiry subs now false true d).1
          = subs.map (fun s =>
              if pppoe_expiry_selects now s then { s with status := "expired" } else s) := by
        intro d
        unfold enforce_pppoe_expiry
        rw [if_neg hemp]
        rfl
      refine ⟨(hfst d1).trans (hfst d2).symm, ?_, ?_⟩
      · intro s hs hsel
        rw [hfst d1]
        have hmem := List.mem_map_of_mem (fun s =>
          if pppoe_expiry_selects now s then { s with status := "expired" } else s) hs
        simpa [hsel] using hmem
      · right
        refine ⟨(((subs.filter (pppoe_expiry_selects now)).map
            (fun s => ((s.pppoe_username.getD "").trim))).filter (fun u => u ≠ "")).map
            (fun u => EnforceEvent.deviceCall u (d1 u)), ?_⟩
        unfold enforce_pppoe_expiry
        rw [if_neg hemp]
        rfl
  · by_cases hemp : (subs.filter (hotspot_expiry_selects now)).isEmpty
    · have hres : ∀ d : String → Bool, enforce_hotspot_expiry subs now false true d = (subs, []) := by
        intro d
        unfold enforce_hotspot_expiry
        rw [if_pos hemp]
      refine ⟨by rw [hres d1, hres d2], ?_, Or.inl (by rw [hres d1])⟩
      intro s hs hsel
      exfalso
      have hmem : s ∈ subs.filter (hotspot_expiry_selects now) :=
        List.mem_filter.mpr ⟨hs, hsel⟩
      rw [List.isEmpty_iff] at hemp
      rw [hemp] at hmem
      exact List.not_mem_nil s hmem
    · have hfst : ∀ d : String → Bool, (enforce_hotspot_expiry subs now false true d).1
          = subs.map (fun s =>
              if hotspot_expiry_selects now s then { s with status := "expired" } else s) := by
        intro d
        unfold enforce_hotspot_expiry
        rw [if_neg hemp]
        rfl
      refine ⟨(hfst d1).trans (hfst d2).symm, ?_, ?_⟩
      · intro s hs hsel
        rw [hfst d1]
        have hmem := List.mem_map_of_mem (fun s =>
          if hotspot_expiry_selects now s then { s with status := "expired" } else s) hs
        simpa [hsel] using hmem
      · right
        refine ⟨(((subs.filter (hotspot_expiry_selects now)).map
            (fun s => ((s.hotspot_username.getD "").trim))).filter (fun u => u ≠ "")).map
            (fun u => EnforceEvent.deviceCall u (d1 u)), ?_⟩
        unfold enforce_hotspot_expiry
        rw [if_neg hemp]
        rfl

/-- C8 witness: enforcing expiry over a single expired subscription with
every device call failing still commits the row as expired, and the
committed store equals the one obtained with every device call succeeding. -/
theorem C8_store_first_expiry_witness :
    ({ c8Sub with status := "expired" }
        ∈ (enforce_pppoe_expiry [c8Sub] 100 false true (fun _ => false)).1)
    ∧ ((enforce_pppoe_expiry [c8Sub] 100 false true (fun _ => false)).1
        = (enforce_pppoe_expiry [c8Sub] 100 false true (fun _ => true)).1)
    ∧ ({ c8HotSub with status := "expired" }
        ∈ (enforce_hotspot_expiry [c8HotSub] 100 false true (fun _ => false)).1) := by
  have h := C8_store_first_expiry [c8Sub] 100 (fun _ => false) (fun _ => true)
  have h2 := C8_store_first_expiry [c8HotSub] 100 (fun _ => false) (fun _ => true)
  exact ⟨h.1.2.1 c8Sub (List.mem_singleton.mpr rfl) (by decide), h.1.1,
    h2.2.2.1 c8HotSub (List.mem_singleton.mpr rfl) (by decide)⟩

/-- C2 (code bug): a matched failure or cancellation callback whose database
update succeeds makes the view fall off its end (its 200 return statement
sits inside the except handler), so the gateway receives HTTP 500 through
the blueprint error handler instead of the acknowledged 200; the remaining
payload classes are acknowledged with 200. -/
theorem C2_failure_callback_returns_500 :
    ((mpesa_callback_route (some "ws_CO_0001") (some 1) none "insufficient funds"
        (some pendingPaymentEx) none pkg60 0).response = none
      ∧ http_status_of (mpesa_callback_route (some "ws_CO_0001") (some 1) none
          "insufficient funds" (some pendingPaymentEx) none pkg60 0).response = 500
      ∧ (mpesa_callback_route (some "ws_CO_0001") (some 1) none "insufficient funds"
          (some pendingPaymentEx) none pkg60 0).payment.map MpesaPayment.status
          = some "failed")
    ∧ (http_status_of (mpesa_callback_route (some "ws_CO_0001") (some 1032) none
        "Request cancelled by user" (some pendingPaymentEx) none pkg60 0).response = 500)
    ∧ (http_status_of (mpesa_callback_route none none none "" none none pkg60 0).response = 200
      ∧ http_status_of (mpesa_callback_route (some "zz") (some 0) none "" none none
          pkg60 0).response = 200
      ∧ http_status_of (mpesa_callback_route (some "ws_CO_0001") (some 0) (some "R") "ok"
          (some pendingPaymentEx) (some c1Sub0) pkg60 0).response = 200
      ∧ http_status_of (mpesa_callback_route (some "ws_CO_0001") (some 1) none ""
          (some { pendingPaymentEx with status := "success", mpesa_receipt := some "R" })
          none pkg60 0).response = 200) := by
  decide

end DmpHotspot
